import Mathlib

/-!
# Verification of `zoho_log_time.py` (zoho-timelog-automation)

Shallow embedding of the canonical script `src/zoho_log_time.py`:
a linear pipeline `get_env` / `get_access_token` / `calc_yesterday_hours` /
`add_time_log`, driven by `main`.  The environment, the time-zone database,
the current local time and the two HTTP transports are parameters; the
embedding records the network calls made and the diagnostics printed, and
returns the process exit code.

Modelling notes:
* Time zones are modelled as fixed-offset (pure wall-clock arithmetic);
  no claim involves a daylight-saving transition.  `datetime.now(tz)` is the
  `now` parameter, already resolved to wall-clock fields in the zone.
* Python `int(...)` on strings is modelled as: strip surrounding whitespace,
  optional single sign, then a nonempty digit run in which single underscores
  may appear between digits (CPython's digit grouping: no leading, trailing,
  or doubled underscore).  (CPython additionally accepts non-ASCII decimal
  digits; no claim depends on those inputs.)
* Python exception messages relevant to the claims are modelled by
  `CalcErr` payloads and the rendering `errTextL`, mirroring CPython texts
  (`repr` quoting of the literal is dropped).
-/

set_option autoImplicit false

namespace Zoho

/-- The process environment: `os.getenv`. -/
def Env : Type := String → Option String

/-- The IANA database as seen by `zoneinfo.ZoneInfo`: is the key recognized? -/
def Tzdb : Type := String → Bool

/-! ## Python string helpers used by `int(...)` and `str.split(":")` -/

/-- Whitespace stripped by Python `int(str)` (ASCII subset; suffices here). -/
def isPySpace (c : Char) : Bool :=
  c = ' ' || c = '\t' || c = '\n' || c = '\r'

/-- `str.strip()` on a character list. -/
def pyStrip (cs : List Char) : List Char :=
  ((cs.dropWhile isPySpace).reverse.dropWhile isPySpace).reverse

/-- Value of a digit run in which a single `'_'` may stand between two
digits (CPython's grouping rule: an underscore must be followed by a digit;
the caller guarantees the run starts with a digit). -/
def digitsValCore : List Char → Nat → Option Nat
  | [], acc => some acc
  | c :: rest, acc =>
      if c.isDigit then digitsValCore rest (acc * 10 + (c.toNat - 48))
      else if c = '_' then
        match rest with
        | [] => none
        | d :: _ => if d.isDigit then digitsValCore rest acc else none
      else none

/-- Value of a digit run with optional underscore grouping; `none` when
empty, not starting with a digit, or violating the grouping rule. -/
def digitsVal : List Char → Option Nat
  | [] => none
  | c :: rest => if c.isDigit then digitsValCore (c :: rest) 0 else none

/-- Python `int(s)` for a string given as characters. -/
def pyIntChars (cs : List Char) : Option Int :=
  match pyStrip cs with
  | '+' :: rest => (digitsVal rest).map (fun n => (n : Int))
  | '-' :: rest => (digitsVal rest).map (fun n => -(n : Int))
  | s => (digitsVal s).map (fun n => (n : Int))

/-- Python `str.split(sep)` for a one-character separator: splits at every
occurrence, keeping empty fields; `"".split(sep) = [""]`. -/
def mySplit (sep : Char) : List Char → List (List Char)
  | [] => [[]]
  | c :: rest =>
      if c = sep then [] :: mySplit sep rest
      else
        match mySplit sep rest with
        | [] => [[c]]
        | h :: t => (c :: h) :: t

/-! ## Calendar arithmetic (`datetime`, fixed-offset wall clock) -/

/-- A wall-clock instant in the configured zone (seconds are never relevant:
the script zeroes them via `replace`). -/
structure DateTime where
  year : Nat
  month : Nat
  day : Nat
  hour : Nat
  minute : Nat
  deriving DecidableEq

/-- Gregorian leap year. -/
def isLeap (y : Nat) : Bool :=
  (y % 4 = 0 && y % 100 ≠ 0) || y % 400 = 0

/-- Days in a Gregorian month. -/
def daysInMonth (y m : Nat) : Nat :=
  if m = 2 then (if isLeap y then 29 else 28)
  else if m = 4 ∨ m = 6 ∨ m = 9 ∨ m = 11 then 30
  else 31

/-- `now - timedelta(days=1)` on an aware datetime: wall-clock arithmetic,
the calendar date moves back one day, the time of day is unchanged. -/
def prevDT (dt : DateTime) : DateTime :=
  if dt.day > 1 then ⟨dt.year, dt.month, dt.day - 1, dt.hour, dt.minute⟩
  else if dt.month > 1 then
    ⟨dt.year, dt.month - 1, daysInMonth dt.year (dt.month - 1), dt.hour, dt.minute⟩
  else ⟨dt.year - 1, 12, 31, dt.hour, dt.minute⟩

/-- Zero-padded two digits, as characters (`f"{n:02d}"` for `n ≥ 0`). -/
def pad2c (n : Nat) : List Char :=
  if n < 10 then ['0', Nat.digitChar n] else Nat.toDigits 10 n

/-- Zero-padded two digits, as a string. -/
def pad2s (n : Nat) : String :=
  String.mk (pad2c n)

/-- `%Y`: the year, zero-padded to four digits. -/
def pad4s (n : Nat) : String :=
  if n < 10 then "000" ++ String.mk (Nat.toDigits 10 n)
  else if n < 100 then "00" ++ String.mk (Nat.toDigits 10 n)
  else if n < 1000 then "0" ++ String.mk (Nat.toDigits 10 n)
  else String.mk (Nat.toDigits 10 n)

/-- `strftime("%m-%d-%Y")`. -/
def strftimeMDY (dt : DateTime) : String :=
  pad2s dt.month ++ "-" ++ pad2s dt.day ++ "-" ++ pad4s dt.year

/-- Minutes-resolution linearisation of a (valid-range) `DateTime`; the
factors dominate the field ranges, so lexicographic order is preserved.
Aware datetimes in one fixed-offset zone compare exactly this way. -/
def encodeMin (dt : DateTime) : Nat :=
  ((dt.year * 13 + dt.month) * 32 + dt.day) * 1440 + dt.hour * 60 + dt.minute

/-! ## Errors raised or reported inside `calc_yesterday_hours` -/

/-- Fatal conditions in `calc_yesterday_hours`: the `ZoneInfo` lookup error,
the `ValueError`s from parsing/unpacking/`replace`, and the explicit
end-not-after-start `sys.exit(1)`.  Each payload is exactly the data the
corresponding Python message carries. -/
inductive CalcErr where
  | unknownTz (tz : String)
  | intParse (lit : List Char)
  | unpackTooFew (got : Nat)
  | unpackTooMany
  | hourRange
  | minuteRange
  | endNotAfterStart
  deriving DecidableEq

/-- The diagnostic text for each `CalcErr`, mirroring the CPython message
(the `repr` quotes around the offending literal are dropped). -/
def errTextL : CalcErr → List Char
  | .unknownTz tz => "No time zone found with key ".toList ++ tz.toList
  | .intParse lit => "invalid literal for int() with base 10: ".toList ++ lit
  | .unpackTooFew got =>
      "not enough values to unpack (expected 2, got ".toList
        ++ (Nat.toDigits 10 got) ++ [')']
  | .unpackTooMany => "too many values to unpack (expected 2)".toList
  | .hourRange => "hour must be in 0..23".toList
  | .minuteRange => "minute must be in 0..59".toList
  | .endNotAfterStart => "End time must be after start time".toList

/-- `h, m = map(int, s.split(":"))`: lazily converts the fields and unpacks
exactly two of them, reproducing which `ValueError` fires first.  The
unpack protocol calls `next` a third time to check exhaustion, so with
three or more fields the third one is still converted — a failing `int`
there pre-empts the too-many-values error — while a fourth field is never
touched. -/
def parseClock (s : String) : Except CalcErr (Int × Int) :=
  match mySplit ':' s.toList with
  | [] => .error (.unpackTooFew 0)
  | [a] =>
      (match pyIntChars a with
       | none => .error (.intParse a)
       | some _ => .error (.unpackTooFew 1))
  | [a, b] =>
      (match pyIntChars a with
       | none => .error (.intParse a)
       | some x =>
         match pyIntChars b with
         | none => .error (.intParse b)
         | some y => .ok (x, y))
  | a :: b :: c :: _ =>
      (match pyIntChars a with
       | none => .error (.intParse a)
       | some _ =>
         match pyIntChars b with
         | none => .error (.intParse b)
         | some _ =>
           match pyIntChars c with
           | none => .error (.intParse c)
           | some _ => .error .unpackTooMany)

/-- `dt.replace(hour=h, minute=m, second=0, microsecond=0)`: validates the
ranges the way the `datetime` constructor does (hour first). -/
def replaceTime (dt : DateTime) (h m : Int) : Except CalcErr DateTime :=
  if h < 0 ∨ 23 < h then .error .hourRange
  else if m < 0 ∨ 59 < m then .error .minuteRange
  else .ok ⟨dt.year, dt.month, dt.day, h.toNat, m.toNat⟩

/-! ## Configuration loader: `get_env` -/

/-- Python truthiness test `not value` on an optional string. -/
def pyNotOpt : Option String → Bool
  | none => true
  | some s => s.isEmpty

/-- `get_env(name, default, required)`: reads the environment, falls back to
the default only when the variable is unset, and rejects a falsy value when
`required` (`.error name` models the `sys.exit(1)` after printing
`Missing required environment variable: name`). -/
def get_env (env : Env) (name : String) (default : Option String)
    (required : Bool) : Except String (Option String) :=
  let value : Option String :=
    match env name with
    | some v => some v
    | none => default
  if required && pyNotOpt value then Except.error name else Except.ok value

/-- `get_env(name, default)` with a string default and `required=False`:
never exits. -/
def getenvD (env : Env) (name : String) (d : String) : String :=
  match get_env env name (some d) false with
  | .ok (some v) => v
  | _ => d

/-- `get_env(name, required=False)` with no default. -/
def getenvOpt (env : Env) (name : String) : Option String :=
  match get_env env name none false with
  | .ok v => v
  | .error _ => none

/-! ## Time-window calculator: `calc_yesterday_hours` -/

/-- `calc_yesterday_hours()`: resolves the zone, takes yesterday in it,
formats the date `%m-%d-%Y`, parses the configured start/end clocks, places
them on yesterday, requires end strictly after start, and formats the
difference in whole minutes as zero-padded `HH:MM`.  An `.error` models the
process dying (uncaught exception or `sys.exit(1)`).  `start_dt` and
`end_dt` share their calendar date, so the `timedelta` difference in whole
minutes is the difference of the minute encodings. -/
def calc_yesterday_hours (env : Env) (tzdb : Tzdb) (now : DateTime) :
    Except CalcErr (String × String) :=
  let tz_name := getenvD env "ZOHO_TIMEZONE" "Asia/Kolkata"
  if tzdb tz_name = false then .error (.unknownTz tz_name)
  else
    let yesterday := prevDT now
    let date_str := strftimeMDY yesterday
    let start_str := getenvD env "ZOHO_TIME_START" "09:30"
    let end_str := getenvD env "ZOHO_TIME_END" "18:30"
    match parseClock start_str with
    | .error e => .error e
    | .ok (sh, sm) =>
      match parseClock end_str with
      | .error e => .error e
      | .ok (eh, em) =>
        match replaceTime yesterday sh sm with
        | .error e => .error e
        | .ok start_dt =>
          match replaceTime yesterday eh em with
          | .error e => .error e
          | .ok end_dt =>
            if encodeMin end_dt ≤ encodeMin start_dt then
              .error .endNotAfterStart
            else
              let total_minutes := encodeMin end_dt - encodeMin start_dt
              let hours := total_minutes / 60
              let minutes := total_minutes % 60
              .ok (date_str, pad2s hours ++ ":" ++ pad2s minutes)

/-! ## JSON values (`json.loads` results) and Python truthiness -/

/-- A parsed JSON value, as produced by `json.loads`. -/
inductive JValue where
  | null
  | bool (b : Bool)
  | num (n : Int)
  | str (s : String)
  | arr (xs : List JValue)
  | obj (fields : List (String × JValue))

/-- Python falsiness of a parsed JSON value. -/
def pyFalsy : JValue → Bool
  | .null => true
  | .bool b => !b
  | .num n => n = 0
  | .str s => s.isEmpty
  | .arr xs => xs.isEmpty
  | .obj fs => fs.isEmpty

/-- `dict.get(key)` on the parsed object fields. -/
def jget (key : String) : List (String × JValue) → Option JValue
  | [] => none
  | (k, v) :: rest => if k = key then some v else jget key rest

/-! ## Transports, calls, diagnostics -/

/-- The token-endpoint stub: either the request/read/`json.loads` chain
raises, or it yields a parsed JSON value. -/
inductive TokenResp where
  | exc (e : String)
  | parsed (js : JValue)

/-- The log-submission stub: a 2xx response with a body, an
`urllib.error.HTTPError`, or any other exception. -/
inductive LogResp where
  | ok (status : Nat) (body : String)
  | httpErr (code : Nat) (reason : String) (body : String)
  | exc (e : String)

/-- One outbound HTTP POST recorded by the run. -/
inductive NetCall where
  | token (url : String) (params : List (String × String))
  | timelog (url : String) (params : List (String × String)) (tok : JValue)

/-- A diagnostic printed to stdout/stderr, with the data it carries. -/
inductive LogMsg where
  | missingEnv (name : String)
  | tokenExc (e : String)
  | tokenNoAccess (js : JValue)
  | attrErr
  | calcError (e : CalcErr)
  | loggingTime (date : String) (hours : String)
  | zohoResponse (status : Nat) (body : String)
  | httpError (code : Nat) (reason : String) (body : String)
  | apiError (e : String)

/-- The observable outcome of a run: process exit code, network calls in
order, diagnostics in order. -/
structure RunResult where
  exitCode : Nat
  calls : List NetCall
  logs : List LogMsg

/-- Number of token-exchange calls in a trace. -/
def countToken : List NetCall → Nat
  | [] => 0
  | .token _ _ :: rest => countToken rest + 1
  | .timelog _ _ _ :: rest => countToken rest

/-- Number of log-submission calls in a trace. -/
def countTimelog : List NetCall → Nat
  | [] => 0
  | .token _ _ :: rest => countTimelog rest
  | .timelog _ _ _ :: rest => countTimelog rest + 1

/-- The parameters of the first log-submission call in a trace, if any. -/
def timelogParams : List NetCall → Option (List (String × String))
  | [] => none
  | .token _ _ :: rest => timelogParams rest
  | .timelog _ ps _ :: _ => some ps

/-- Lookup in a form-parameter list. -/
def pget (key : String) : List (String × String) → Option String
  | [] => none
  | (k, v) :: rest => if k = key then some v else pget key rest

/-! ## Token acquirer: `get_access_token` -/

/-- The token-endpoint URL for a data-center host. -/
def tokenUrl (dc : String) : String :=
  "https://" ++ dc ++ "/oauth/v2/token"

/-- The form-encoded token-request parameters, in source order. -/
def tokenParams (rtok cid csec : String) : List (String × String) :=
  [("refresh_token", rtok), ("client_id", cid), ("client_secret", csec),
   ("grant_type", "refresh_token")]

/-- `get_access_token()`: reads the three required credentials and the
data-center host, POSTs the refresh-token exchange, and demands a truthy
`access_token` field of the parsed JSON object.  Returns the calls made,
the diagnostics printed, and `some token` on success (`none` models
`sys.exit(1)` or an uncaught exception).  A successful required `get_env`
always yields `some` value, so `Option.getD ""` below never fires. -/
def get_access_token_r (env : Env) (tokStub : TokenResp) :
    List NetCall × List LogMsg × Option JValue :=
  match get_env env "ZOHO_CLIENT_ID" none true with
  | .error n => ([], [.missingEnv n], none)
  | .ok cid =>
    match get_env env "ZOHO_CLIENT_SECRET" none true with
    | .error n => ([], [.missingEnv n], none)
    | .ok csec =>
      match get_env env "ZOHO_REFRESH_TOKEN" none true with
      | .error n => ([], [.missingEnv n], none)
      | .ok rtok =>
        let dc := getenvD env "ZOHO_DC" "accounts.zoho.in"
        let call := NetCall.token (tokenUrl dc)
          (tokenParams (rtok.getD "") (cid.getD "") (csec.getD ""))
        match tokStub with
        | .exc e => ([call], [.tokenExc e], none)
        | .parsed js =>
          match js with
          | .obj fields =>
            (match jget "access_token" fields with
             | none => ([call], [.tokenNoAccess js], none)
             | some v =>
               if pyFalsy v then ([call], [.tokenNoAccess js], none)
               else ([call], [], some v))
          | _ => ([call], [.attrErr], none)

/-! ## Log submitter: `add_time_log` -/

/-- The submission URL for the portal/project/task identifiers. -/
def timelogUrl (portal project task : String) : String :=
  "https://projectsapi.zoho.com/restapi/portal/" ++ portal ++ "/projects/"
    ++ project ++ "/tasks/" ++ task ++ "/logs/"

/-- The form-encoded submission body, in source order: the `owner` field is
appended only when `user_id` is truthy (set and nonempty). -/
def timelogBody (date_str bill_status hours_str notesPfx : String)
    (user_id : Option String) : List (String × String) :=
  [("date", date_str), ("bill_status", bill_status), ("hours", hours_str),
   ("notes", notesPfx ++ " - " ++ date_str)]
    ++ (if pyNotOpt user_id then [] else [("owner", user_id.getD "")])

/-- `add_time_log(access_token)`: reads the identifiers and labels, computes
the window, prints the `Logging time` line, and POSTs the body.  Exit code
0 only when the submission stub answers 2xx. -/
def add_time_log_r (env : Env) (tzdb : Tzdb) (now : DateTime)
    (logStub : LogResp) (tok : JValue) : RunResult :=
  match get_env env "ZOHO_PORTAL_ID" none true with
  | .error n => ⟨1, [], [.missingEnv n]⟩
  | .ok portal =>
    match get_env env "ZOHO_PROJECT_ID" none true with
    | .error n => ⟨1, [], [.missingEnv n]⟩
    | .ok project =>
      match get_env env "ZOHO_TASK_ID" none true with
      | .error n => ⟨1, [], [.missingEnv n]⟩
      | .ok task =>
        let user_id := getenvOpt env "ZOHO_USER_ID"
        let bill_status := getenvD env "ZOHO_BILL_STATUS" "Billable"
        let notesPfx := getenvD env "ZOHO_NOTES_PREFIX" "GitHub auto log"
        match calc_yesterday_hours env tzdb now with
        | .error e => ⟨1, [], [.calcError e]⟩
        | .ok (date_str, hours_str) =>
          let url := timelogUrl (portal.getD "") (project.getD "") (task.getD "")
          let params := timelogBody date_str bill_status hours_str notesPfx user_id
          let call := NetCall.timelog url params tok
          match logStub with
          | .ok status body =>
              ⟨0, [call], [.loggingTime date_str hours_str, .zohoResponse status body]⟩
          | .httpErr code reason body =>
              ⟨1, [call], [.loggingTime date_str hours_str, .httpError code reason body]⟩
          | .exc e =>
              ⟨1, [call], [.loggingTime date_str hours_str, .apiError e]⟩

/-- `main()`: token exchange first, then submission; the script falls off
the end of `main` with exit code 0. -/
def runMain (env : Env) (tzdb : Tzdb) (now : DateTime)
    (tokStub : TokenResp) (logStub : LogResp) : RunResult :=
  match get_access_token_r env tokStub with
  | (calls, logs, none) => ⟨1, calls, logs⟩
  | (calls, logs, some tok) =>
    let r := add_time_log_r env tzdb now logStub tok
    ⟨r.exitCode, calls ++ r.calls, logs ++ r.logs⟩

/-! ## Lemmas: clock parsing -/

/-- The canonical zero-padded 24-hour clock string `HH:MM`. -/
def clockStr (h m : Nat) : String :=
  String.mk (pad2c h ++ ':' :: pad2c m)

theorem mySplit_no_sep {sep : Char} {cs : List Char} (h : sep ∉ cs) :
    mySplit sep cs = [cs] := by
  induction cs with
  | nil => rfl
  | cons c rest ih =>
      have hc : ¬c = sep := fun hc => h (hc ▸ List.mem_cons_self c rest)
      have hr : sep ∉ rest := fun hr => h (List.mem_cons_of_mem c hr)
      simp [mySplit, hc, ih hr]

theorem mySplit_append {sep : Char} {a b : List Char} (h : sep ∉ a) :
    mySplit sep (a ++ sep :: b) = a :: mySplit sep b := by
  induction a with
  | nil => simp [mySplit]
  | cons c rest ih =>
      have hc : ¬c = sep := fun hc => h (hc ▸ List.mem_cons_self c rest)
      have hr : sep ∉ rest := fun hr => h (List.mem_cons_of_mem c hr)
      simp only [List.cons_append, mySplit, hc, if_false, List.append_eq]
      rw [ih hr]

theorem pad2c_no_colon : ∀ n : Nat, n < 100 → ':' ∉ pad2c n := by decide

theorem pyIntChars_pad2c : ∀ n : Nat, n < 100 → pyIntChars (pad2c n) = some (n : Int) := by
  decide

theorem parseClock_clockStr {h m : Nat} (hh : h < 100) (hm : m < 100) :
    parseClock (clockStr h m) = .ok ((h : Int), (m : Int)) := by
  have hsplit : mySplit ':' (pad2c h ++ ':' :: pad2c m) = [pad2c h, pad2c m] := by
    rw [mySplit_append (pad2c_no_colon h hh), mySplit_no_sep (pad2c_no_colon m hm)]
  show parseClock (String.mk (pad2c h ++ ':' :: pad2c m)) = _
  unfold parseClock
  rw [show (String.mk (pad2c h ++ ':' :: pad2c m)).toList = pad2c h ++ ':' :: pad2c m from rfl]
  rw [hsplit]
  simp [pyIntChars_pad2c h hh, pyIntChars_pad2c m hm]

/-! ## Lemmas: the time-window calculator on accepted inputs -/

theorem calc_ok (env : Env) (tzdb : Tzdb) (now : DateTime) (ss es : String)
    (sh sm eh em : Nat)
    (hss : env "ZOHO_TIME_START" = some ss)
    (hes : env "ZOHO_TIME_END" = some es)
    (htz : tzdb (getenvD env "ZOHO_TIMEZONE" "Asia/Kolkata") = true)
    (hps : parseClock ss = .ok ((sh : Int), (sm : Int)))
    (hpe : parseClock es = .ok ((eh : Int), (em : Int)))
    (hsh : sh < 24) (hsm : sm < 60) (heh : eh < 24) (hem : em < 60)
    (hlt : sh * 60 + sm < eh * 60 + em) :
    calc_yesterday_hours env tzdb now =
      .ok (strftimeMDY (prevDT now),
        pad2s ((eh * 60 + em - (sh * 60 + sm)) / 60) ++ ":" ++
          pad2s ((eh * 60 + em - (sh * 60 + sm)) % 60)) := by
  have hsS : getenvD env "ZOHO_TIME_START" "09:30" = ss := by
    simp [getenvD, get_env, hss]
  have hsE : getenvD env "ZOHO_TIME_END" "18:30" = es := by
    simp [getenvD, get_env, hes]
  have hrs : replaceTime (prevDT now) (sh : Int) (sm : Int) =
      .ok ⟨(prevDT now).year, (prevDT now).month, (prevDT now).day, sh, sm⟩ := by
    unfold replaceTime
    rw [if_neg (by omega), if_neg (by omega)]
    simp
  have hre : replaceTime (prevDT now) (eh : Int) (em : Int) =
      .ok ⟨(prevDT now).year, (prevDT now).month, (prevDT now).day, eh, em⟩ := by
    unfold replaceTime
    rw [if_neg (by omega), if_neg (by omega)]
    simp
  simp only [calc_yesterday_hours, hsS, hsE, htz, Bool.true_eq_false, if_false,
    hps, hpe, hrs, hre]
  have hcmp : ¬(encodeMin ⟨(prevDT now).year, (prevDT now).month, (prevDT now).day, eh, em⟩ ≤
      encodeMin ⟨(prevDT now).year, (prevDT now).month, (prevDT now).day, sh, sm⟩) := by
    simp only [encodeMin]
    omega
  rw [if_neg hcmp]
  have hdiff : encodeMin ⟨(prevDT now).year, (prevDT now).month, (prevDT now).day, eh, em⟩ -
      encodeMin ⟨(prevDT now).year, (prevDT now).month, (prevDT now).day, sh, sm⟩ =
      eh * 60 + em - (sh * 60 + sm) := by
    simp only [encodeMin]
    omega
  rw [hdiff]

/-! ## Concrete fixtures shared by witnesses and counterexamples -/

/-- An environment built from a literal binding list. -/
def envOf (l : List (String × String)) : Env :=
  fun n => pget n l

/-- A time-zone database that recognizes every key. -/
def tzAll : Tzdb := fun _ => true

/-- A fixed wall-clock instant: 2024-03-01 03:00, whose previous day is the
leap day 02-29-2024. -/
def nowLeap : DateTime := ⟨2024, 3, 1, 3, 0⟩

/-! ## C1 -/

/-- C1: for every valid zero-padded 24-hour `HH:MM` start/end pair with end
strictly after start (and a recognized time zone), `calc_yesterday_hours`
returns the duration end − start in whole minutes, decomposed into
zero-padded hours:minutes, and the date now-in-zone minus one day formatted
zero-padded `MM-DD-YYYY`. -/
theorem c1_compute_window (env : Env) (tzdb : Tzdb) (now : DateTime)
    (sh sm eh em : Nat)
    (hss : env "ZOHO_TIME_START" = some (clockStr sh sm))
    (hes : env "ZOHO_TIME_END" = some (clockStr eh em))
    (htz : tzdb (getenvD env "ZOHO_TIMEZONE" "Asia/Kolkata") = true)
    (hsh : sh < 24) (hsm : sm < 60) (heh : eh < 24) (hem : em < 60)
    (hlt : sh * 60 + sm < eh * 60 + em) :
    calc_yesterday_hours env tzdb now =
      .ok (strftimeMDY (prevDT now),
        pad2s ((eh * 60 + em - (sh * 60 + sm)) / 60) ++ ":" ++
          pad2s ((eh * 60 + em - (sh * 60 + sm)) % 60)) :=
  calc_ok env tzdb now _ _ sh sm eh em hss hes htz
    (parseClock_clockStr (by omega) (by omega))
    (parseClock_clockStr (by omega) (by omega))
    hsh hsm heh hem hlt

theorem c1_compute_window_witness :
    calc_yesterday_hours
      (envOf [("ZOHO_TIME_START", "10:05"), ("ZOHO_TIME_END", "11:04")])
      tzAll nowLeap = .ok ("02-29-2024", "00:59") := by
  have h := c1_compute_window
    (envOf [("ZOHO_TIME_START", "10:05"), ("ZOHO_TIME_END", "11:04")])
    tzAll nowLeap 10 5 11 4 rfl rfl rfl
    (by decide) (by decide) (by decide) (by decide) (by decide)
  rw [h]
  rfl

/-! ## C7 -/

/-- C7: with start `09:30` and end `18:30` (and a recognized time zone), the
computed duration string is exactly `09:00`. -/
theorem c7_nine_hours (env : Env) (tzdb : Tzdb) (now : DateTime)
    (hss : env "ZOHO_TIME_START" = some "09:30")
    (hes : env "ZOHO_TIME_END" = some "18:30")
    (htz : tzdb (getenvD env "ZOHO_TIMEZONE" "Asia/Kolkata") = true) :
    calc_yesterday_hours env tzdb now =
      .ok (strftimeMDY (prevDT now), "09:00") := by
  have h := calc_ok env tzdb now "09:30" "18:30" 9 30 18 30 hss hes htz
    (by rfl) (by rfl)
    (by decide) (by decide) (by decide) (by decide) (by decide)
  rw [h]
  rfl

theorem c7_nine_hours_witness :
    calc_yesterday_hours
      (envOf [("ZOHO_TIME_START", "09:30"), ("ZOHO_TIME_END", "18:30")])
      tzAll nowLeap = .ok ("02-29-2024", "09:00") := by
  have h := c7_nine_hours
    (envOf [("ZOHO_TIME_START", "09:30"), ("ZOHO_TIME_END", "18:30")])
    tzAll nowLeap rfl rfl rfl
  rw [h]
  rfl

/-! ## Lemmas: the configuration loader -/

theorem get_env_req_ok {env : Env} {n v : String}
    (h : env n = some v) (hv : v.isEmpty = false) :
    get_env env n none true = .ok (some v) := by
  simp [get_env, h, pyNotOpt, hv]

theorem get_env_req_fail {env : Env} {n : String}
    (h : pyNotOpt (env n) = true) :
    get_env env n none true = .error n := by
  cases he : env n with
  | none => simp [get_env, he, pyNotOpt]
  | some v =>
      rw [he] at h
      simp only [pyNotOpt] at h
      simp [get_env, he, pyNotOpt, h]

/-! ## Lemmas: the token acquirer -/

theorem get_access_token_ok {env : Env} {tokStub : TokenResp}
    {ci cs rt : String} {fields : List (String × JValue)} {v : JValue}
    (h1 : get_env env "ZOHO_CLIENT_ID" none true = .ok (some ci))
    (h2 : get_env env "ZOHO_CLIENT_SECRET" none true = .ok (some cs))
    (h3 : get_env env "ZOHO_REFRESH_TOKEN" none true = .ok (some rt))
    (hstub : tokStub = .parsed (.obj fields))
    (hjv : jget "access_token" fields = some v)
    (htv : pyFalsy v = false) :
    get_access_token_r env tokStub =
      ([NetCall.token (tokenUrl (getenvD env "ZOHO_DC" "accounts.zoho.in"))
          (tokenParams rt ci cs)], [], some v) := by
  simp only [get_access_token_r, h1, h2, h3, hstub, hjv, htv, Option.getD,
    Bool.false_eq_true, if_false]

theorem get_access_token_noacc {env : Env} {tokStub : TokenResp}
    {ci cs rt : String} {fields : List (String × JValue)}
    (h1 : get_env env "ZOHO_CLIENT_ID" none true = .ok (some ci))
    (h2 : get_env env "ZOHO_CLIENT_SECRET" none true = .ok (some cs))
    (h3 : get_env env "ZOHO_REFRESH_TOKEN" none true = .ok (some rt))
    (hstub : tokStub = .parsed (.obj fields))
    (hjv : ∀ v, jget "access_token" fields = some v → pyFalsy v = true) :
    get_access_token_r env tokStub =
      ([NetCall.token (tokenUrl (getenvD env "ZOHO_DC" "accounts.zoho.in"))
          (tokenParams rt ci cs)], [.tokenNoAccess (.obj fields)], none) := by
  cases hj : jget "access_token" fields with
  | none => simp only [get_access_token_r, h1, h2, h3, hstub, hj, Option.getD]
  | some v =>
      have ht := hjv v hj
      simp only [get_access_token_r, h1, h2, h3, hstub, hj, ht, Option.getD, if_true]

/-! ## Lemmas: assembling `main` -/

theorem runMain_of_token_fail {env : Env} {tzdb : Tzdb} {now : DateTime}
    {tokStub : TokenResp} {logStub : LogResp}
    {cls : List NetCall} {lgs : List LogMsg}
    (h : get_access_token_r env tokStub = (cls, lgs, none)) :
    runMain env tzdb now tokStub logStub = ⟨1, cls, lgs⟩ := by
  simp only [runMain, h]

theorem runMain_of_token_ok {env : Env} {tzdb : Tzdb} {now : DateTime}
    {tokStub : TokenResp} {logStub : LogResp}
    {cls : List NetCall} {lgs : List LogMsg} {tok : JValue}
    (h : get_access_token_r env tokStub = (cls, lgs, some tok)) :
    runMain env tzdb now tokStub logStub =
      ⟨(add_time_log_r env tzdb now logStub tok).exitCode,
       cls ++ (add_time_log_r env tzdb now logStub tok).calls,
       lgs ++ (add_time_log_r env tzdb now logStub tok).logs⟩ := by
  simp only [runMain, h]

/-! ## C3 -/

/-- C3: when the three credentials are present and the token endpoint
returns a parseable JSON object with no `access_token` field, the run exits
non-zero, logs the full parsed response, and makes no log-submission call. -/
theorem c3_no_access_token_field (env : Env) (tzdb : Tzdb) (now : DateTime)
    (logStub : LogResp) (ci cs rt : String) (fields : List (String × JValue))
    (h1 : get_env env "ZOHO_CLIENT_ID" none true = .ok (some ci))
    (h2 : get_env env "ZOHO_CLIENT_SECRET" none true = .ok (some cs))
    (h3 : get_env env "ZOHO_REFRESH_TOKEN" none true = .ok (some rt))
    (hnone : jget "access_token" fields = none) :
    (runMain env tzdb now (.parsed (.obj fields)) logStub).exitCode = 1 ∧
    (runMain env tzdb now (.parsed (.obj fields)) logStub).logs =
      [.tokenNoAccess (.obj fields)] ∧
    countTimelog (runMain env tzdb now (.parsed (.obj fields)) logStub).calls = 0 := by
  have h := @runMain_of_token_fail env tzdb now _ logStub _ _
    (get_access_token_noacc h1 h2 h3 rfl
      (fun v hv => by rw [hnone] at hv; exact Option.noConfusion hv))
  rw [h]
  exact ⟨rfl, rfl, rfl⟩

theorem c3_no_access_token_field_witness :
    (runMain (envOf [("ZOHO_CLIENT_ID", "id1"), ("ZOHO_CLIENT_SECRET", "sec1"),
        ("ZOHO_REFRESH_TOKEN", "ref1")]) tzAll nowLeap
      (.parsed (.obj [("error", .str "invalid_client")])) (.ok 200 "ok")).exitCode = 1 ∧
    (runMain (envOf [("ZOHO_CLIENT_ID", "id1"), ("ZOHO_CLIENT_SECRET", "sec1"),
        ("ZOHO_REFRESH_TOKEN", "ref1")]) tzAll nowLeap
      (.parsed (.obj [("error", .str "invalid_client")])) (.ok 200 "ok")).logs =
      [.tokenNoAccess (.obj [("error", .str "invalid_client")])] ∧
    countTimelog (runMain (envOf [("ZOHO_CLIENT_ID", "id1"), ("ZOHO_CLIENT_SECRET", "sec1"),
        ("ZOHO_REFRESH_TOKEN", "ref1")]) tzAll nowLeap
      (.parsed (.obj [("error", .str "invalid_client")])) (.ok 200 "ok")).calls = 0 :=
  c3_no_access_token_field _ tzAll nowLeap (.ok 200 "ok") "id1" "sec1" "ref1"
    [("error", .str "invalid_client")] rfl rfl rfl rfl

/-! ## C9 -/

/-- C9: when the parsed token response has an `access_token` field whose
value is falsy (for instance the empty string), the run treats it as a
token-acquisition failure: non-zero exit, the full response logged, and no
log-submission call. -/
theorem c9_falsy_access_token (env : Env) (tzdb : Tzdb) (now : DateTime)
    (logStub : LogResp) (ci cs rt : String) (fields : List (String × JValue))
    (v : JValue)
    (h1 : get_env env "ZOHO_CLIENT_ID" none true = .ok (some ci))
    (h2 : get_env env "ZOHO_CLIENT_SECRET" none true = .ok (some cs))
    (h3 : get_env env "ZOHO_REFRESH_TOKEN" none true = .ok (some rt))
    (hv : jget "access_token" fields = some v)
    (hfal : pyFalsy v = true) :
    (runMain env tzdb now (.parsed (.obj fields)) logStub).exitCode = 1 ∧
    (runMain env tzdb now (.parsed (.obj fields)) logStub).logs =
      [.tokenNoAccess (.obj fields)] ∧
    countTimelog (runMain env tzdb now (.parsed (.obj fields)) logStub).calls = 0 := by
  have h := @runMain_of_token_fail env tzdb now _ logStub _ _
    (get_access_token_noacc h1 h2 h3 rfl
      (fun w hw => by rw [hv] at hw; cases hw; exact hfal))
  rw [h]
  exact ⟨rfl, rfl, rfl⟩

theorem c9_falsy_access_token_witness :
    (runMain (envOf [("ZOHO_CLIENT_ID", "id1"), ("ZOHO_CLIENT_SECRET", "sec1"),
        ("ZOHO_REFRESH_TOKEN", "ref1")]) tzAll nowLeap
      (.parsed (.obj [("access_token", .str "")])) (.ok 200 "ok")).exitCode = 1 ∧
    (runMain (envOf [("ZOHO_CLIENT_ID", "id1"), ("ZOHO_CLIENT_SECRET", "sec1"),
        ("ZOHO_REFRESH_TOKEN", "ref1")]) tzAll nowLeap
      (.parsed (.obj [("access_token", .str "")])) (.ok 200 "ok")).logs =
      [.tokenNoAccess (.obj [("access_token", .str "")])] ∧
    countTimelog (runMain (envOf [("ZOHO_CLIENT_ID", "id1"), ("ZOHO_CLIENT_SECRET", "sec1"),
        ("ZOHO_REFRESH_TOKEN", "ref1")]) tzAll nowLeap
      (.parsed (.obj [("access_token", .str "")])) (.ok 200 "ok")).calls = 0 :=
  c9_falsy_access_token _ tzAll nowLeap (.ok 200 "ok") "id1" "sec1" "ref1"
    [("access_token", .str "")] (.str "") rfl rfl rfl rfl rfl

/-! ## C8 -/

/-- C8: a required setting whose environment value is present but equal to
the empty string is treated exactly like an absent one: `get_env` rejects it
naming the setting regardless of any supplied default, and at process level
the run exits 1 with the naming message and no network call. -/
theorem c8_empty_required (env : Env) :
    (∀ (name : String) (default : Option String), env name = some "" →
        get_env env name default true = .error name) ∧
    (∀ (tzdb : Tzdb) (now : DateTime) (tokStub : TokenResp) (logStub : LogResp),
        env "ZOHO_CLIENT_ID" = some "" →
        runMain env tzdb now tokStub logStub =
          ⟨1, [], [.missingEnv "ZOHO_CLIENT_ID"]⟩) := by
  have hmt : pyNotOpt (some "") = true := rfl
  constructor
  · intro name default h
    simp [get_env, h, hmt]
  · intro tzdb now tokStub logStub h
    have hfail : get_env env "ZOHO_CLIENT_ID" none true = .error "ZOHO_CLIENT_ID" := by
      simp [get_env, h, hmt]
    exact runMain_of_token_fail (by simp only [get_access_token_r, hfail])

theorem c8_empty_required_witness :
    get_env (envOf [("ZOHO_CLIENT_ID", "")]) "ZOHO_CLIENT_ID" (some "fallback") true =
      .error "ZOHO_CLIENT_ID" ∧
    runMain (envOf [("ZOHO_CLIENT_ID", "")]) tzAll nowLeap
        (.parsed (.obj [("access_token", .str "tok")])) (.ok 200 "ok") =
      ⟨1, [], [.missingEnv "ZOHO_CLIENT_ID"]⟩ :=
  ⟨(c8_empty_required (envOf [("ZOHO_CLIENT_ID", "")])).1 "ZOHO_CLIENT_ID" (some "fallback") rfl,
   (c8_empty_required (envOf [("ZOHO_CLIENT_ID", "")])).2 tzAll nowLeap
     (.parsed (.obj [("access_token", .str "tok")])) (.ok 200 "ok") rfl⟩

/-! ## Lemmas: failing paths of the calculator and the submitter -/

theorem calc_err_of_end_le_start (env : Env) (tzdb : Tzdb) (now : DateTime)
    (ss es : String) (sh sm eh em : Nat)
    (hss : env "ZOHO_TIME_START" = some ss)
    (hes : env "ZOHO_TIME_END" = some es)
    (hps : parseClock ss = .ok ((sh : Int), (sm : Int)))
    (hpe : parseClock es = .ok ((eh : Int), (em : Int)))
    (hsh : sh < 24) (hsm : sm < 60) (heh : eh < 24) (hem : em < 60)
    (hle : eh * 60 + em ≤ sh * 60 + sm) :
    ∃ e, calc_yesterday_hours env tzdb now = .error e := by
  have hsS : getenvD env "ZOHO_TIME_START" "09:30" = ss := by
    simp [getenvD, get_env, hss]
  have hsE : getenvD env "ZOHO_TIME_END" "18:30" = es := by
    simp [getenvD, get_env, hes]
  cases htz : tzdb (getenvD env "ZOHO_TIMEZONE" "Asia/Kolkata") with
  | false =>
      exact ⟨.unknownTz (getenvD env "ZOHO_TIMEZONE" "Asia/Kolkata"),
        by simp [calc_yesterday_hours, htz]⟩
  | true =>
      refine ⟨.endNotAfterStart, ?_⟩
      have hrs : replaceTime (prevDT now) (sh : Int) (sm : Int) =
          .ok ⟨(prevDT now).year, (prevDT now).month, (prevDT now).day, sh, sm⟩ := by
        unfold replaceTime
        rw [if_neg (by omega), if_neg (by omega)]
        simp
      have hre : replaceTime (prevDT now) (eh : Int) (em : Int) =
          .ok ⟨(prevDT now).year, (prevDT now).month, (prevDT now).day, eh, em⟩ := by
        unfold replaceTime
        rw [if_neg (by omega), if_neg (by omega)]
        simp
      simp only [calc_yesterday_hours, hsS, hsE, htz, Bool.true_eq_false, if_false,
        hps, hpe, hrs, hre]
      rw [if_pos]
      simp only [encodeMin]
      omega

theorem add_time_log_calc_err {env : Env} {tzdb : Tzdb} {now : DateTime}
    {logStub : LogResp} {tok : JValue} {e : CalcErr}
    {portal project task : String}
    (h4 : get_env env "ZOHO_PORTAL_ID" none true = .ok (some portal))
    (h5 : get_env env "ZOHO_PROJECT_ID" none true = .ok (some project))
    (h6 : get_env env "ZOHO_TASK_ID" none true = .ok (some task))
    (hcalc : calc_yesterday_hours env tzdb now = .error e) :
    add_time_log_r env tzdb now logStub tok = ⟨1, [], [.calcError e]⟩ := by
  simp only [add_time_log_r, h4, h5, h6, hcalc]

/-! ## C2 -/

/-- The claim as stated is false: with end ≤ start the run does abort with
exit 1, but the token-exchange network call has already been made, so a
stub transport records one call, not zero. -/
theorem c2_counterexample :
    (runMain (envOf [("ZOHO_CLIENT_ID", "id1"), ("ZOHO_CLIENT_SECRET", "sec1"),
        ("ZOHO_REFRESH_TOKEN", "ref1"), ("ZOHO_PORTAL_ID", "p1"),
        ("ZOHO_PROJECT_ID", "pr1"), ("ZOHO_TASK_ID", "t1"),
        ("ZOHO_TIME_START", "18:30"), ("ZOHO_TIME_END", "09:30")]) tzAll nowLeap
      (.parsed (.obj [("access_token", .str "tok")])) (.ok 200 "ok")).exitCode = 1 ∧
    countToken (runMain (envOf [("ZOHO_CLIENT_ID", "id1"), ("ZOHO_CLIENT_SECRET", "sec1"),
        ("ZOHO_REFRESH_TOKEN", "ref1"), ("ZOHO_PORTAL_ID", "p1"),
        ("ZOHO_PROJECT_ID", "pr1"), ("ZOHO_TASK_ID", "t1"),
        ("ZOHO_TIME_START", "18:30"), ("ZOHO_TIME_END", "09:30")]) tzAll nowLeap
      (.parsed (.obj [("access_token", .str "tok")])) (.ok 200 "ok")).calls = 1 ∧
    (runMain (envOf [("ZOHO_CLIENT_ID", "id1"), ("ZOHO_CLIENT_SECRET", "sec1"),
        ("ZOHO_REFRESH_TOKEN", "ref1"), ("ZOHO_PORTAL_ID", "p1"),
        ("ZOHO_PROJECT_ID", "pr1"), ("ZOHO_TASK_ID", "t1"),
        ("ZOHO_TIME_START", "18:30"), ("ZOHO_TIME_END", "09:30")]) tzAll nowLeap
      (.parsed (.obj [("access_token", .str "tok")])) (.ok 200 "ok")).logs =
      [.calcError .endNotAfterStart] :=
  ⟨rfl, rfl, rfl⟩

/-- C2 (amended): for every valid start/end pair with end ≤ start, once the
credentials are present and a token was obtained, the run exits non-zero
before the log-submission call — but after the token-exchange call, which
the trace records exactly once. -/
theorem c2_end_not_after_start (env : Env) (tzdb : Tzdb) (now : DateTime)
    (logStub : LogResp) (ci cs rt portal project task : String)
    (fields : List (String × JValue)) (v : JValue)
    (ss es : String) (sh sm eh em : Nat)
    (h1 : get_env env "ZOHO_CLIENT_ID" none true = .ok (some ci))
    (h2 : get_env env "ZOHO_CLIENT_SECRET" none true = .ok (some cs))
    (h3 : get_env env "ZOHO_REFRESH_TOKEN" none true = .ok (some rt))
    (hjv : jget "access_token" fields = some v)
    (htv : pyFalsy v = false)
    (h4 : get_env env "ZOHO_PORTAL_ID" none true = .ok (some portal))
    (h5 : get_env env "ZOHO_PROJECT_ID" none true = .ok (some project))
    (h6 : get_env env "ZOHO_TASK_ID" none true = .ok (some task))
    (hss : env "ZOHO_TIME_START" = some ss)
    (hes : env "ZOHO_TIME_END" = some es)
    (hps : parseClock ss = .ok ((sh : Int), (sm : Int)))
    (hpe : parseClock es = .ok ((eh : Int), (em : Int)))
    (hsh : sh < 24) (hsm : sm < 60) (heh : eh < 24) (hem : em < 60)
    (hle : eh * 60 + em ≤ sh * 60 + sm) :
    (runMain env tzdb now (.parsed (.obj fields)) logStub).exitCode = 1 ∧
    countTimelog (runMain env tzdb now (.parsed (.obj fields)) logStub).calls = 0 ∧
    countToken (runMain env tzdb now (.parsed (.obj fields)) logStub).calls = 1 := by
  obtain ⟨e, hcalc⟩ := calc_err_of_end_le_start env tzdb now ss es sh sm eh em
    hss hes hps hpe hsh hsm heh hem hle
  have htok := get_access_token_ok h1 h2 h3 rfl hjv htv
  rw [runMain_of_token_ok htok, add_time_log_calc_err h4 h5 h6 hcalc]
  exact ⟨rfl, rfl, rfl⟩

theorem c2_end_not_after_start_witness :
    (runMain (envOf [("ZOHO_CLIENT_ID", "id1"), ("ZOHO_CLIENT_SECRET", "sec1"),
        ("ZOHO_REFRESH_TOKEN", "ref1"), ("ZOHO_PORTAL_ID", "p1"),
        ("ZOHO_PROJECT_ID", "pr1"), ("ZOHO_TASK_ID", "t1"),
        ("ZOHO_TIME_START", "11:00"), ("ZOHO_TIME_END", "11:00")]) tzAll nowLeap
      (.parsed (.obj [("access_token", .str "tok")])) (.ok 200 "ok")).exitCode = 1 ∧
    countTimelog (runMain (envOf [("ZOHO_CLIENT_ID", "id1"), ("ZOHO_CLIENT_SECRET", "sec1"),
        ("ZOHO_REFRESH_TOKEN", "ref1"), ("ZOHO_PORTAL_ID", "p1"),
        ("ZOHO_PROJECT_ID", "pr1"), ("ZOHO_TASK_ID", "t1"),
        ("ZOHO_TIME_START", "11:00"), ("ZOHO_TIME_END", "11:00")]) tzAll nowLeap
      (.parsed (.obj [("access_token", .str "tok")])) (.ok 200 "ok")).calls = 0 ∧
    countToken (runMain (envOf [("ZOHO_CLIENT_ID", "id1"), ("ZOHO_CLIENT_SECRET", "sec1"),
        ("ZOHO_REFRESH_TOKEN", "ref1"), ("ZOHO_PORTAL_ID", "p1"),
        ("ZOHO_PROJECT_ID", "pr1"), ("ZOHO_TASK_ID", "t1"),
        ("ZOHO_TIME_START", "11:00"), ("ZOHO_TIME_END", "11:00")]) tzAll nowLeap
      (.parsed (.obj [("access_token", .str "tok")])) (.ok 200 "ok")).calls = 1 :=
  c2_end_not_after_start (envOf [("ZOHO_CLIENT_ID", "id1"), ("ZOHO_CLIENT_SECRET", "sec1"),
      ("ZOHO_REFRESH_TOKEN", "ref1"), ("ZOHO_PORTAL_ID", "p1"),
      ("ZOHO_PROJECT_ID", "pr1"), ("ZOHO_TASK_ID", "t1"),
      ("ZOHO_TIME_START", "11:00"), ("ZOHO_TIME_END", "11:00")]) tzAll nowLeap
    (.ok 200 "ok") "id1" "sec1" "ref1"
    "p1" "pr1" "t1" [("access_token", .str "tok")] (.str "tok") "11:00" "11:00"
    11 0 11 0 rfl rfl rfl rfl rfl rfl rfl rfl rfl rfl (by rfl) (by rfl)
    (by decide) (by decide) (by decide) (by decide) (by decide)

/-! ## C4 -/

theorem tok_fail_client {env : Env} {tokStub : TokenResp}
    (h : pyNotOpt (env "ZOHO_CLIENT_ID") = true) :
    get_access_token_r env tokStub = ([], [.missingEnv "ZOHO_CLIENT_ID"], none) := by
  simp only [get_access_token_r, get_env_req_fail h]

theorem tok_fail_secret {env : Env} {tokStub : TokenResp} {ci : String}
    (h1 : get_env env "ZOHO_CLIENT_ID" none true = .ok (some ci))
    (h : pyNotOpt (env "ZOHO_CLIENT_SECRET") = true) :
    get_access_token_r env tokStub = ([], [.missingEnv "ZOHO_CLIENT_SECRET"], none) := by
  simp only [get_access_token_r, h1, get_env_req_fail h]

theorem tok_fail_refresh {env : Env} {tokStub : TokenResp} {ci cs : String}
    (h1 : get_env env "ZOHO_CLIENT_ID" none true = .ok (some ci))
    (h2 : get_env env "ZOHO_CLIENT_SECRET" none true = .ok (some cs))
    (h : pyNotOpt (env "ZOHO_REFRESH_TOKEN") = true) :
    get_access_token_r env tokStub = ([], [.missingEnv "ZOHO_REFRESH_TOKEN"], none) := by
  simp only [get_access_token_r, h1, h2, get_env_req_fail h]

theorem add_fail_portal {env : Env} {tzdb : Tzdb} {now : DateTime}
    {logStub : LogResp} {tok : JValue}
    (h : pyNotOpt (env "ZOHO_PORTAL_ID") = true) :
    add_time_log_r env tzdb now logStub tok = ⟨1, [], [.missingEnv "ZOHO_PORTAL_ID"]⟩ := by
  simp only [add_time_log_r, get_env_req_fail h]

theorem add_fail_project {env : Env} {tzdb : Tzdb} {now : DateTime}
    {logStub : LogResp} {tok : JValue} {portal : String}
    (h4 : get_env env "ZOHO_PORTAL_ID" none true = .ok (some portal))
    (h : pyNotOpt (env "ZOHO_PROJECT_ID") = true) :
    add_time_log_r env tzdb now logStub tok = ⟨1, [], [.missingEnv "ZOHO_PROJECT_ID"]⟩ := by
  simp only [add_time_log_r, h4, get_env_req_fail h]

theorem add_fail_task {env : Env} {tzdb : Tzdb} {now : DateTime}
    {logStub : LogResp} {tok : JValue} {portal project : String}
    (h4 : get_env env "ZOHO_PORTAL_ID" none true = .ok (some portal))
    (h5 : get_env env "ZOHO_PROJECT_ID" none true = .ok (some project))
    (h : pyNotOpt (env "ZOHO_TASK_ID") = true) :
    add_time_log_r env tzdb now logStub tok = ⟨1, [], [.missingEnv "ZOHO_TASK_ID"]⟩ := by
  simp only [add_time_log_r, h4, h5, get_env_req_fail h]

/-- The claim as stated is false: with `ZOHO_PORTAL_ID` absent (everything
else fine) the run aborts naming the setting, but the token-exchange
network call has already been attempted, not zero network calls. -/
theorem c4_counterexample :
    (runMain (envOf [("ZOHO_CLIENT_ID", "id1"), ("ZOHO_CLIENT_SECRET", "sec1"),
        ("ZOHO_REFRESH_TOKEN", "ref1"), ("ZOHO_PROJECT_ID", "pr1"),
        ("ZOHO_TASK_ID", "t1")]) tzAll nowLeap
      (.parsed (.obj [("access_token", .str "tok")])) (.ok 200 "ok")).exitCode = 1 ∧
    (runMain (envOf [("ZOHO_CLIENT_ID", "id1"), ("ZOHO_CLIENT_SECRET", "sec1"),
        ("ZOHO_REFRESH_TOKEN", "ref1"), ("ZOHO_PROJECT_ID", "pr1"),
        ("ZOHO_TASK_ID", "t1")]) tzAll nowLeap
      (.parsed (.obj [("access_token", .str "tok")])) (.ok 200 "ok")).logs =
      [.missingEnv "ZOHO_PORTAL_ID"] ∧
    countToken (runMain (envOf [("ZOHO_CLIENT_ID", "id1"), ("ZOHO_CLIENT_SECRET", "sec1"),
        ("ZOHO_REFRESH_TOKEN", "ref1"), ("ZOHO_PROJECT_ID", "pr1"),
        ("ZOHO_TASK_ID", "t1")]) tzAll nowLeap
      (.parsed (.obj [("access_token", .str "tok")])) (.ok 200 "ok")).calls = 1 :=
  ⟨rfl, rfl, rfl⟩

/-- C4 (amended): a missing (absent or empty) required setting aborts the
run with exit 1 and a message naming it, and the log-submission call is
never attempted; no network call at all is made when the missing setting is
one of the credentials read before the token exchange, while a missing
portal/project/task identifier is detected only after the token-exchange
call. -/
theorem c4_missing_required :
    (∀ (env : Env) (tzdb : Tzdb) (now : DateTime) (tokStub : TokenResp) (logStub : LogResp),
       pyNotOpt (env "ZOHO_CLIENT_ID") = true →
       runMain env tzdb now tokStub logStub = ⟨1, [], [.missingEnv "ZOHO_CLIENT_ID"]⟩) ∧
    (∀ (env : Env) (tzdb : Tzdb) (now : DateTime) (tokStub : TokenResp) (logStub : LogResp)
       (ci : String),
       get_env env "ZOHO_CLIENT_ID" none true = .ok (some ci) →
       pyNotOpt (env "ZOHO_CLIENT_SECRET") = true →
       runMain env tzdb now tokStub logStub = ⟨1, [], [.missingEnv "ZOHO_CLIENT_SECRET"]⟩) ∧
    (∀ (env : Env) (tzdb : Tzdb) (now : DateTime) (tokStub : TokenResp) (logStub : LogResp)
       (ci cs : String),
       get_env env "ZOHO_CLIENT_ID" none true = .ok (some ci) →
       get_env env "ZOHO_CLIENT_SECRET" none true = .ok (some cs) →
       pyNotOpt (env "ZOHO_REFRESH_TOKEN") = true →
       runMain env tzdb now tokStub logStub = ⟨1, [], [.missingEnv "ZOHO_REFRESH_TOKEN"]⟩) ∧
    (∀ (env : Env) (tzdb : Tzdb) (now : DateTime) (logStub : LogResp)
       (ci cs rt : String) (fields : List (String × JValue)) (v : JValue),
       get_env env "ZOHO_CLIENT_ID" none true = .ok (some ci) →
       get_env env "ZOHO_CLIENT_SECRET" none true = .ok (some cs) →
       get_env env "ZOHO_REFRESH_TOKEN" none true = .ok (some rt) →
       jget "access_token" fields = some v → pyFalsy v = false →
       pyNotOpt (env "ZOHO_PORTAL_ID") = true →
       (runMain env tzdb now (.parsed (.obj fields)) logStub).exitCode = 1 ∧
       (runMain env tzdb now (.parsed (.obj fields)) logStub).logs =
         [.missingEnv "ZOHO_PORTAL_ID"] ∧
       countTimelog (runMain env tzdb now (.parsed (.obj fields)) logStub).calls = 0 ∧
       countToken (runMain env tzdb now (.parsed (.obj fields)) logStub).calls = 1) ∧
    (∀ (env : Env) (tzdb : Tzdb) (now : DateTime) (logStub : LogResp)
       (ci cs rt portal : String) (fields : List (String × JValue)) (v : JValue),
       get_env env "ZOHO_CLIENT_ID" none true = .ok (some ci) →
       get_env env "ZOHO_CLIENT_SECRET" none true = .ok (some cs) →
       get_env env "ZOHO_REFRESH_TOKEN" none true = .ok (some rt) →
       jget "access_token" fields = some v → pyFalsy v = false →
       get_env env "ZOHO_PORTAL_ID" none true = .ok (some portal) →
       pyNotOpt (env "ZOHO_PROJECT_ID") = true →
       (runMain env tzdb now (.parsed (.obj fields)) logStub).exitCode = 1 ∧
       (runMain env tzdb now (.parsed (.obj fields)) logStub).logs =
         [.missingEnv "ZOHO_PROJECT_ID"] ∧
       countTimelog (runMain env tzdb now (.parsed (.obj fields)) logStub).calls = 0 ∧
       countToken (runMain env tzdb now (.parsed (.obj fields)) logStub).calls = 1) ∧
    (∀ (env : Env) (tzdb : Tzdb) (now : DateTime) (logStub : LogResp)
       (ci cs rt portal project : String) (fields : List (String × JValue)) (v : JValue),
       get_env env "ZOHO_CLIENT_ID" none true = .ok (some ci) →
       get_env env "ZOHO_CLIENT_SECRET" none true = .ok (some cs) →
       get_env env "ZOHO_REFRESH_TOKEN" none true = .ok (some rt) →
       jget "access_token" fields = some v → pyFalsy v = false →
       get_env env "ZOHO_PORTAL_ID" none true = .ok (some portal) →
       get_env env "ZOHO_PROJECT_ID" none true = .ok (some project) →
       pyNotOpt (env "ZOHO_TASK_ID") = true →
       (runMain env tzdb now (.parsed (.obj fields)) logStub).exitCode = 1 ∧
       (runMain env tzdb now (.parsed (.obj fields)) logStub).logs =
         [.missingEnv "ZOHO_TASK_ID"] ∧
       countTimelog (runMain env tzdb now (.parsed (.obj fields)) logStub).calls = 0 ∧
       countToken (runMain env tzdb now (.parsed (.obj fields)) logStub).calls = 1) := by
  refine ⟨?_, ?_, ?_, ?_, ?_, ?_⟩
  · intro env tzdb now tokStub logStub h
    exact runMain_of_token_fail (tok_fail_client h)
  · intro env tzdb now tokStub logStub ci h1 h
    exact runMain_of_token_fail (tok_fail_secret h1 h)
  · intro env tzdb now tokStub logStub ci cs h1 h2 h
    exact runMain_of_token_fail (tok_fail_refresh h1 h2 h)
  · intro env tzdb now logStub ci cs rt fields v h1 h2 h3 hjv htv h
    rw [runMain_of_token_ok (get_access_token_ok h1 h2 h3 rfl hjv htv),
      add_fail_portal h]
    exact ⟨rfl, rfl, rfl, rfl⟩
  · intro env tzdb now logStub ci cs rt portal fields v h1 h2 h3 hjv htv h4 h
    rw [runMain_of_token_ok (get_access_token_ok h1 h2 h3 rfl hjv htv),
      add_fail_project h4 h]
    exact ⟨rfl, rfl, rfl, rfl⟩
  · intro env tzdb now logStub ci cs rt portal project fields v h1 h2 h3 hjv htv h4 h5 h
    rw [runMain_of_token_ok (get_access_token_ok h1 h2 h3 rfl hjv htv),
      add_fail_task h4 h5 h]
    exact ⟨rfl, rfl, rfl, rfl⟩

theorem c4_missing_required_witness :
    runMain (envOf [("ZOHO_PROJECT_ID", "pr1")]) tzAll nowLeap
        (.parsed (.obj [("access_token", .str "tok")])) (.ok 200 "ok") =
      ⟨1, [], [.missingEnv "ZOHO_CLIENT_ID"]⟩ ∧
    (runMain (envOf [("ZOHO_CLIENT_ID", "id1"), ("ZOHO_CLIENT_SECRET", "sec1"),
        ("ZOHO_REFRESH_TOKEN", "ref1"), ("ZOHO_PROJECT_ID", "pr1"),
        ("ZOHO_TASK_ID", "t1")]) tzAll nowLeap
      (.parsed (.obj [("access_token", .str "tok")])) (.ok 200 "ok")).logs =
      [.missingEnv "ZOHO_PORTAL_ID"] :=
  ⟨c4_missing_required.1 (envOf [("ZOHO_PROJECT_ID", "pr1")]) tzAll nowLeap
      (.parsed (.obj [("access_token", .str "tok")])) (.ok 200 "ok") rfl,
   (c4_missing_required.2.2.2.1 (envOf [("ZOHO_CLIENT_ID", "id1"),
       ("ZOHO_CLIENT_SECRET", "sec1"), ("ZOHO_REFRESH_TOKEN", "ref1"),
       ("ZOHO_PROJECT_ID", "pr1"), ("ZOHO_TASK_ID", "t1")]) tzAll nowLeap
     (.ok 200 "ok") "id1" "sec1" "ref1" [("access_token", .str "tok")]
     (.str "tok") rfl rfl rfl rfl rfl rfl).2.1⟩

/-! ## Lemmas: the fully successful run -/

theorem run_success {env : Env} {tzdb : Tzdb} {now : DateTime}
    {status : Nat} {body : String}
    {ci cs rt portal project task : String}
    {fields : List (String × JValue)} {v : JValue} {d hs : String}
    (h1 : get_env env "ZOHO_CLIENT_ID" none true = .ok (some ci))
    (h2 : get_env env "ZOHO_CLIENT_SECRET" none true = .ok (some cs))
    (h3 : get_env env "ZOHO_REFRESH_TOKEN" none true = .ok (some rt))
    (hjv : jget "access_token" fields = some v)
    (htv : pyFalsy v = false)
    (h4 : get_env env "ZOHO_PORTAL_ID" none true = .ok (some portal))
    (h5 : get_env env "ZOHO_PROJECT_ID" none true = .ok (some project))
    (h6 : get_env env "ZOHO_TASK_ID" none true = .ok (some task))
    (hcalc : calc_yesterday_hours env tzdb now = .ok (d, hs)) :
    runMain env tzdb now (.parsed (.obj fields)) (.ok status body) =
      ⟨0,
       [.token (tokenUrl (getenvD env "ZOHO_DC" "accounts.zoho.in"))
          (tokenParams rt ci cs),
        .timelog (timelogUrl portal project task)
          (timelogBody d (getenvD env "ZOHO_BILL_STATUS" "Billable") hs
            (getenvD env "ZOHO_NOTES_PREFIX" "GitHub auto log")
            (getenvOpt env "ZOHO_USER_ID")) v],
       [.loggingTime d hs, .zohoResponse status body]⟩ := by
  have hadd : add_time_log_r env tzdb now (.ok status body) v =
      ⟨0,
       [.timelog (timelogUrl portal project task)
          (timelogBody d (getenvD env "ZOHO_BILL_STATUS" "Billable") hs
            (getenvD env "ZOHO_NOTES_PREFIX" "GitHub auto log")
            (getenvOpt env "ZOHO_USER_ID")) v],
       [.loggingTime d hs, .zohoResponse status body]⟩ := by
    simp only [add_time_log_r, h4, h5, h6, hcalc, Option.getD]
  rw [runMain_of_token_ok (get_access_token_ok h1 h2 h3 rfl hjv htv), hadd]
  rfl

/-! ## C5 -/

/-- The claim as stated is false: the notes field is not the notes prefix
concatenated with the date string — the code inserts a `" - "` separator
between them. -/
theorem c5_counterexample :
    pget "notes" ((timelogParams (runMain (envOf [("ZOHO_CLIENT_ID", "id1"),
        ("ZOHO_CLIENT_SECRET", "sec1"), ("ZOHO_REFRESH_TOKEN", "ref1"),
        ("ZOHO_PORTAL_ID", "p1"), ("ZOHO_PROJECT_ID", "pr1"), ("ZOHO_TASK_ID", "t1"),
        ("ZOHO_USER_ID", "u77")]) tzAll nowLeap
      (.parsed (.obj [("access_token", .str "tok")])) (.ok 200 "ok")).calls).getD []) =
      some "GitHub auto log - 02-29-2024" ∧
    "GitHub auto log - 02-29-2024" ≠ "GitHub auto log" ++ "02-29-2024" :=
  ⟨rfl, by decide⟩

/-- C5 (amended): every successful run submits exactly the fields
`date` (the computed date), `bill_status`, `hours` (the computed duration),
`notes` (the notes prefix, a `" - "` separator, then the date string), and
`owner` — present if and only if the user identifier is supplied (set to a
nonempty value); the run exits zero. -/
theorem c5_post_body (env : Env) (tzdb : Tzdb) (now : DateTime)
    (status : Nat) (body : String)
    (ci cs rt portal project task : String)
    (fields : List (String × JValue)) (v : JValue) (d hs : String)
    (h1 : get_env env "ZOHO_CLIENT_ID" none true = .ok (some ci))
    (h2 : get_env env "ZOHO_CLIENT_SECRET" none true = .ok (some cs))
    (h3 : get_env env "ZOHO_REFRESH_TOKEN" none true = .ok (some rt))
    (hjv : jget "access_token" fields = some v)
    (htv : pyFalsy v = false)
    (h4 : get_env env "ZOHO_PORTAL_ID" none true = .ok (some portal))
    (h5 : get_env env "ZOHO_PROJECT_ID" none true = .ok (some project))
    (h6 : get_env env "ZOHO_TASK_ID" none true = .ok (some task))
    (hcalc : calc_yesterday_hours env tzdb now = .ok (d, hs)) :
    runMain env tzdb now (.parsed (.obj fields)) (.ok status body) =
      ⟨0,
       [.token (tokenUrl (getenvD env "ZOHO_DC" "accounts.zoho.in"))
          (tokenParams rt ci cs),
        .timelog (timelogUrl portal project task)
          ([("date", d), ("bill_status", getenvD env "ZOHO_BILL_STATUS" "Billable"),
            ("hours", hs),
            ("notes", getenvD env "ZOHO_NOTES_PREFIX" "GitHub auto log" ++ " - " ++ d)]
            ++ (if pyNotOpt (getenvOpt env "ZOHO_USER_ID") then []
                else [("owner", (getenvOpt env "ZOHO_USER_ID").getD "")])) v],
       [.loggingTime d hs, .zohoResponse status body]⟩ := by
  rw [run_success h1 h2 h3 hjv htv h4 h5 h6 hcalc]
  rfl

theorem c5_post_body_witness :
    runMain (envOf [("ZOHO_CLIENT_ID", "id1"), ("ZOHO_CLIENT_SECRET", "sec1"),
        ("ZOHO_REFRESH_TOKEN", "ref1"), ("ZOHO_PORTAL_ID", "p1"),
        ("ZOHO_PROJECT_ID", "pr1"), ("ZOHO_TASK_ID", "t1"), ("ZOHO_USER_ID", "u77")])
      tzAll nowLeap (.parsed (.obj [("access_token", .str "tok")])) (.ok 200 "ok") =
      ⟨0,
       [.token (tokenUrl "accounts.zoho.in")
          (tokenParams "ref1" "id1" "sec1"),
        .timelog (timelogUrl "p1" "pr1" "t1")
          [("date", "02-29-2024"), ("bill_status", "Billable"), ("hours", "09:00"),
           ("notes", "GitHub auto log - 02-29-2024"), ("owner", "u77")]
          (.str "tok")],
       [.loggingTime "02-29-2024" "09:00", .zohoResponse 200 "ok"]⟩ := by
  have h := c5_post_body (envOf [("ZOHO_CLIENT_ID", "id1"), ("ZOHO_CLIENT_SECRET", "sec1"),
      ("ZOHO_REFRESH_TOKEN", "ref1"), ("ZOHO_PORTAL_ID", "p1"),
      ("ZOHO_PROJECT_ID", "pr1"), ("ZOHO_TASK_ID", "t1"), ("ZOHO_USER_ID", "u77")])
    tzAll nowLeap 200 "ok" "id1" "sec1" "ref1" "p1" "pr1" "t1"
    [("access_token", .str "tok")] (.str "tok") "02-29-2024" "09:00"
    rfl rfl rfl rfl rfl rfl rfl rfl (by rfl)
  rw [h]
  rfl

/-! ## C10 -/

/-- C10: when `ZOHO_USER_ID` is set to the empty string, the successful
run's submission body contains no `owner` field — the check is on the
value's non-emptiness, not mere presence of the variable. -/
theorem c10_empty_user_no_owner (env : Env) (tzdb : Tzdb) (now : DateTime)
    (status : Nat) (body : String)
    (ci cs rt portal project task : String)
    (fields : List (String × JValue)) (v : JValue) (d hs : String)
    (h1 : get_env env "ZOHO_CLIENT_ID" none true = .ok (some ci))
    (h2 : get_env env "ZOHO_CLIENT_SECRET" none true = .ok (some cs))
    (h3 : get_env env "ZOHO_REFRESH_TOKEN" none true = .ok (some rt))
    (hjv : jget "access_token" fields = some v)
    (htv : pyFalsy v = false)
    (h4 : get_env env "ZOHO_PORTAL_ID" none true = .ok (some portal))
    (h5 : get_env env "ZOHO_PROJECT_ID" none true = .ok (some project))
    (h6 : get_env env "ZOHO_TASK_ID" none true = .ok (some task))
    (hcalc : calc_yesterday_hours env tzdb now = .ok (d, hs))
    (huser : env "ZOHO_USER_ID" = some "") :
    pget "owner"
      ((timelogParams (runMain env tzdb now (.parsed (.obj fields))
        (.ok status body)).calls).getD []) = none := by
  have hu : getenvOpt env "ZOHO_USER_ID" = some "" := by
    simp [getenvOpt, get_env, huser]
  rw [run_success h1 h2 h3 hjv htv h4 h5 h6 hcalc]
  simp only [timelogParams, Option.getD, timelogBody, hu]
  have hne : pyNotOpt (some "") = true := rfl
  rw [hne]
  simp [pget]

theorem c10_empty_user_no_owner_witness :
    pget "owner" ((timelogParams (runMain (envOf [("ZOHO_CLIENT_ID", "id1"),
        ("ZOHO_CLIENT_SECRET", "sec1"), ("ZOHO_REFRESH_TOKEN", "ref1"),
        ("ZOHO_PORTAL_ID", "p1"), ("ZOHO_PROJECT_ID", "pr1"), ("ZOHO_TASK_ID", "t1"),
        ("ZOHO_USER_ID", "")]) tzAll nowLeap
      (.parsed (.obj [("access_token", .str "tok")])) (.ok 200 "ok")).calls).getD []) =
      none :=
  c10_empty_user_no_owner (envOf [("ZOHO_CLIENT_ID", "id1"),
      ("ZOHO_CLIENT_SECRET", "sec1"), ("ZOHO_REFRESH_TOKEN", "ref1"),
      ("ZOHO_PORTAL_ID", "p1"), ("ZOHO_PROJECT_ID", "pr1"), ("ZOHO_TASK_ID", "t1"),
      ("ZOHO_USER_ID", "")]) tzAll nowLeap 200 "ok" "id1" "sec1" "ref1"
    "p1" "pr1" "t1" [("access_token", .str "tok")] (.str "tok") "02-29-2024" "09:00"
    rfl rfl rfl rfl rfl rfl rfl rfl (by rfl) rfl

/-! ## Substring occurrence (for "the error names the offending value") -/

/-- `pat` is a prefix of the second list. -/
def startsWithL : List Char → List Char → Bool
  | [], _ => true
  | _ :: _, [] => false
  | a :: as, b :: bs => a = b && startsWithL as bs

/-- `pat` occurs contiguously somewhere in the second list. -/
def occursL (pat : List Char) : List Char → Bool
  | [] => pat.isEmpty
  | c :: rest => startsWithL pat (c :: rest) || occursL pat rest

theorem startsWithL_append (p b : List Char) : startsWithL p (p ++ b) = true := by
  induction p with
  | nil => rfl
  | cons a as ih => simp [startsWithL, ih]

theorem occursL_head (p b : List Char) : occursL p (p ++ b) = true := by
  cases p with
  | nil =>
      cases b with
      | nil => rfl
      | cons c rest => simp [occursL, startsWithL]
  | cons x xs => simp [occursL, startsWithL, startsWithL_append]

theorem occursL_append_left {p t : List Char} (a : List Char)
    (h : occursL p t = true) : occursL p (a ++ t) = true := by
  induction a with
  | nil => simpa using h
  | cons c as ih => simp [occursL, ih]

theorem occursL_mid (a p b : List Char) : occursL p (a ++ (p ++ b)) = true :=
  occursL_append_left a (occursL_head p b)

/-- A time-zone database recognizing no key at all. -/
def tzNone : Tzdb := fun _ => false

/-! ## C6 -/

/-- The claim as stated is false at concrete inputs: with
`ZOHO_TIME_START = "0930"` the run is fatal but the reported error (an
unpack count mismatch) does not contain the offending value; and the clock
strings `"+9:30"` and `"1_0:30"`, neither valid `HH:MM` 24-hour format,
are accepted rather than fatal (`int` strips whitespace, takes a sign, and
allows underscore digit grouping). -/
theorem c6_counterexample :
    (runMain (envOf [("ZOHO_CLIENT_ID", "id1"), ("ZOHO_CLIENT_SECRET", "sec1"),
        ("ZOHO_REFRESH_TOKEN", "ref1"), ("ZOHO_PORTAL_ID", "p1"),
        ("ZOHO_PROJECT_ID", "pr1"), ("ZOHO_TASK_ID", "t1"),
        ("ZOHO_TIME_START", "0930")]) tzAll nowLeap
      (.parsed (.obj [("access_token", .str "tok")])) (.ok 200 "ok")).exitCode = 1 ∧
    (runMain (envOf [("ZOHO_CLIENT_ID", "id1"), ("ZOHO_CLIENT_SECRET", "sec1"),
        ("ZOHO_REFRESH_TOKEN", "ref1"), ("ZOHO_PORTAL_ID", "p1"),
        ("ZOHO_PROJECT_ID", "pr1"), ("ZOHO_TASK_ID", "t1"),
        ("ZOHO_TIME_START", "0930")]) tzAll nowLeap
      (.parsed (.obj [("access_token", .str "tok")])) (.ok 200 "ok")).logs =
      [.calcError (.unpackTooFew 1)] ∧
    occursL "0930".toList (errTextL (.unpackTooFew 1)) = false ∧
    calc_yesterday_hours (envOf [("ZOHO_TIME_START", "+9:30")]) tzAll nowLeap =
      .ok ("02-29-2024", "09:00") ∧
    calc_yesterday_hours (envOf [("ZOHO_TIME_START", "1_0:30")]) tzAll nowLeap =
      .ok ("02-29-2024", "08:00") :=
  ⟨rfl, rfl, rfl, rfl, rfl⟩

/-- C6 (amended): an unrecognized time-zone name, or any failure of the
window computation (wrong colon-field count, non-integer component,
out-of-range hour/minute, end not after start), makes the run fatal with
exit 1, the error logged and the log-submission call never attempted; the
error text names the unrecognized time zone and names any component that
fails integer conversion — including, in an over-long split, the third
component, which the unpack protocol still converts before raising the
count error — while a count-mismatch error itself (too few fields with a
convertible first field, or too many with the first three convertible)
reports only the field count. -/
theorem c6_invalid_tz_or_clock :
    (∀ (env : Env) (tzdb : Tzdb) (now : DateTime),
       tzdb (getenvD env "ZOHO_TIMEZONE" "Asia/Kolkata") = false →
       calc_yesterday_hours env tzdb now =
         .error (.unknownTz (getenvD env "ZOHO_TIMEZONE" "Asia/Kolkata")) ∧
       occursL (getenvD env "ZOHO_TIMEZONE" "Asia/Kolkata").toList
         (errTextL (.unknownTz (getenvD env "ZOHO_TIMEZONE" "Asia/Kolkata"))) = true) ∧
    (∀ (env : Env) (tzdb : Tzdb) (now : DateTime) (logStub : LogResp)
       (ci cs rt portal project task : String)
       (fields : List (String × JValue)) (v : JValue) (e : CalcErr),
       get_env env "ZOHO_CLIENT_ID" none true = .ok (some ci) →
       get_env env "ZOHO_CLIENT_SECRET" none true = .ok (some cs) →
       get_env env "ZOHO_REFRESH_TOKEN" none true = .ok (some rt) →
       jget "access_token" fields = some v → pyFalsy v = false →
       get_env env "ZOHO_PORTAL_ID" none true = .ok (some portal) →
       get_env env "ZOHO_PROJECT_ID" none true = .ok (some project) →
       get_env env "ZOHO_TASK_ID" none true = .ok (some task) →
       calc_yesterday_hours env tzdb now = .error e →
       (runMain env tzdb now (.parsed (.obj fields)) logStub).exitCode = 1 ∧
       LogMsg.calcError e ∈ (runMain env tzdb now (.parsed (.obj fields)) logStub).logs ∧
       countTimelog (runMain env tzdb now (.parsed (.obj fields)) logStub).calls = 0) ∧
    (∀ lit : List Char, occursL lit (errTextL (.intParse lit)) = true) ∧
    (parseClock "1:2:x" = .error (.intParse ['x']) ∧
     parseClock "1:2:3:4" = .error .unpackTooMany ∧
     parseClock "0930" = .error (.unpackTooFew 1)) := by
  refine ⟨?_, ?_, ?_, ?_⟩
  · intro env tzdb now htz
    refine ⟨by simp [calc_yesterday_hours, htz], ?_⟩
    show occursL (getenvD env "ZOHO_TIMEZONE" "Asia/Kolkata").toList
      ("No time zone found with key ".toList ++
        (getenvD env "ZOHO_TIMEZONE" "Asia/Kolkata").toList) = true
    have h := occursL_mid "No time zone found with key ".toList
      (getenvD env "ZOHO_TIMEZONE" "Asia/Kolkata").toList []
    rwa [List.append_nil] at h
  · intro env tzdb now logStub ci cs rt portal project task fields v e
      h1 h2 h3 hjv htv h4 h5 h6 hcalc
    rw [runMain_of_token_ok (get_access_token_ok h1 h2 h3 rfl hjv htv),
      add_time_log_calc_err h4 h5 h6 hcalc]
    exact ⟨rfl, List.mem_singleton.mpr rfl, rfl⟩
  · intro lit
    show occursL lit ("invalid literal for int() with base 10: ".toList ++ lit) = true
    have h := occursL_mid "invalid literal for int() with base 10: ".toList lit []
    rwa [List.append_nil] at h
  · exact ⟨rfl, rfl, rfl⟩

theorem c6_invalid_tz_or_clock_witness :
    calc_yesterday_hours (envOf [("ZOHO_TIMEZONE", "Mars/Olympus")]) tzNone nowLeap =
      .error (.unknownTz "Mars/Olympus") ∧
    occursL "Mars/Olympus".toList (errTextL (.unknownTz "Mars/Olympus")) = true :=
  c6_invalid_tz_or_clock.1 (envOf [("ZOHO_TIMEZONE", "Mars/Olympus")]) tzNone nowLeap rfl

end Zoho
